import Mathlib

/-!
# WMX3UtilClang: memory-log acquisition helper

A shallow embedding of `src/WMX3UtilClang.hpp` (namespace `wmxclang`): the sample
history `LogDataHistory` and the session controller `WmxUtil`.

Modelling conventions.

* A C++ member function becomes a Lean function on an explicit controller state; it
  returns an `Outcome` (normal return, thrown `std::runtime_error`, `std::terminate`)
  together with the state it leaves behind.
* The driver object `m_pLog` (class `wmx3Api::Log`, declared in `LogApi.h`, which is not
  part of the sources) is a record of answer functions.  An answer may depend on every
  request issued so far, so any deterministic device is an instance.  The controller
  state carries the list of requests it has issued.
* `double` values are only stored and handed back, never computed with; they are
  elements of an arbitrary type `D` with a zero (the literal `0.0`).
* Fixed-width integers are `Nat`/`Int` with explicit wrap-around at each conversion.
* `std::vector` capacity (`reserve`) is not observable and is left out.  Lines written
  to `std::cout` are left out; lines written to `std::cerr` are kept in the state.
* The controller members touched by the foreground calls (`m_curChannel`, `stopFlag`,
  the thread handle) change only in those calls, so the calls are modelled sequentially.
  A `std::thread` handle is joinable from construction until `join`, whether or not its
  function has finished.  The worker body is a repetition of `collectLogData`; how its
  iterations interleave with the foreground is not modelled.
-/

namespace wmxclang

/-! ## Driver types consumed through `m_pLog` -/

/-- Modelled from the spec: the enumeration `wmx3Api::LogState` of `LogApi.h` (not under
src); the code names `Idle` and `Running`, every further enumerator is `Other n`. -/
inductive LogState where
  | Idle
  | Running
  | Other (n : Nat)
  deriving DecidableEq, Repr

/-- Modelled from the spec: the two fields of `wmx3Api::MemoryLogStatus` the code reads. -/
structure MemoryLogStatus where
  logState : LogState
  bufferOpened : Bool
  deriving DecidableEq, Repr

/-- Modelled from the spec: the fields of `wmx3Api::AxisSelection` written by `startLog`
(the entries `axis[0 .. axisCount-1]`). -/
structure AxisSelection where
  axisCount : Nat
  axis : List Nat
  deriving DecidableEq, Repr

/-- Modelled from the spec: the field of `wmx3Api::MemoryLogOptions` written by `startLog`. -/
structure MemoryLogOptions where
  triggerEventCount : Nat
  deriving DecidableEq, Repr

/-- Modelled from the spec: one element `axisData[index][axis]` of a fetched batch. -/
structure CoreMotionAxisLogOutput (D : Type) where
  feedbackPos : D
  feedbackVelocity : D

/-- Modelled from the spec: `wmx3Api::CoreMotionLogOutput`, the batch filled in by
`GetMemoryLogData`; `axisData` is the fixed-size two-dimensional array. -/
structure CoreMotionLogOutput (D : Type) where
  count : Nat
  overflowFlag : Nat
  axisData : Nat → Nat → CoreMotionAxisLogOutput D

/-- Modelled from the spec: `wmx3Api::ErrorCode::None`, the "no error" return code. -/
def ErrorCode.None : Nat := 0

/-- One call made through `m_pLog`. -/
inductive Request where
  | GetMemoryLogStatus (channel : Int)
  | OpenMemoryLogBuffer (channel : Int)
  | CloseMemoryLogBuffer (channel : Int)
  | SetMemoryLog (channel : Int) (axisSel : AxisSelection) (options : MemoryLogOptions)
  | StartMemoryLog (channel : Int)
  | StopMemoryLog (channel : Int)
  | GetMemoryLogData (channel : Int)
  deriving DecidableEq, Repr

/-- The driver object behind `m_pLog`.  Each function receives the requests issued before
the call and the arguments of the call, and gives the `uint32_t` return code (and the
out-parameter, where the call has one). -/
structure Log (D : Type) where
  GetMemoryLogStatus : List Request → Int → Nat × MemoryLogStatus
  OpenMemoryLogBuffer : List Request → Int → Nat
  CloseMemoryLogBuffer : List Request → Int → Nat
  SetMemoryLog : List Request → Int → AxisSelection → MemoryLogOptions → Nat
  StartMemoryLog : List Request → Int → Nat
  StopMemoryLog : List Request → Int → Nat
  GetMemoryLogData : List Request → Int → Nat × CoreMotionLogOutput D

/-! ## Integer conversions -/

/-- Conversion of an integer value to `uint8_t`. -/
def toUInt8 (x : Int) : Int := x % 256

/-- Conversion of an integer value to `int8_t`. -/
def toInt8 (x : Int) : Int := (x + 128) % 256 - 128

/-- Conversion of a size to `uint16_t`. -/
def toUInt16 (n : Nat) : Nat := n % 65536

/-! ## LogDataHistory -/

/-- The class `LogDataHistory`: two parallel vectors and the overflow flag. -/
structure LogDataHistory (D : Type) where
  feedbackPositions : List D
  feedbackVelocities : List D
  overflowFlag : Bool

namespace LogDataHistory

variable {D : Type}

/-- The constructor `LogDataHistory(count)`: both vectors empty, flag false. -/
def new : LogDataHistory D :=
  { feedbackPositions := [], feedbackVelocities := [], overflowFlag := false }

/-- The method `addLogData(position, velocity)`: one `push_back` on each vector. -/
def addLogData (h : LogDataHistory D) (position velocity : D) : LogDataHistory D :=
  { h with
    feedbackPositions := h.feedbackPositions ++ [position]
    feedbackVelocities := h.feedbackVelocities ++ [velocity] }

/-- The method `getLogDataSize()`: `feedbackPositions.size()` returned as `uint16_t`. -/
def getLogDataSize (h : LogDataHistory D) : Nat :=
  toUInt16 h.feedbackPositions.length

/-- The method `getLogData(index)` with `index` converted to `uint16_t` on entry.  The
source guards the access with the size of `feedbackPositions` only and reads both vectors
unchecked; the two vectors always have the same length (see `addAll_eq`), so the default
of `getD` is never used on a history built by `addLogData`. -/
def getLogData [Zero D] (h : LogDataHistory D) (index : Nat) : D × D :=
  let index := toUInt16 index
  if index < h.feedbackPositions.length then
    (h.feedbackPositions.getD index 0, h.feedbackVelocities.getD index 0)
  else
    (0, 0)

/-- The method `setOverflowFlag(flag)`. -/
def setOverflowFlag (h : LogDataHistory D) (flag : Bool) : LogDataHistory D :=
  { h with overflowFlag := flag }

/-- A sequence of `addLogData` calls, one per listed sample, in order. -/
def addAll (h : LogDataHistory D) (samples : List (D × D)) : LogDataHistory D :=
  samples.foldl (fun acc s => acc.addLogData s.1 s.2) h

end LogDataHistory

/-! ## Outcomes and controller state -/

/-- How a member function ends: it returns a value, throws `std::runtime_error(what)`,
reaches `std::terminate`, or dereferences a null `logDataHistory`. -/
inductive Outcome (α : Type) where
  | returned (value : α)
  | thrown (what : String)
  | terminated
  | nullDeref
  deriving DecidableEq, Repr

/-- The data members of `WmxUtil`, the requests issued through `m_pLog`, and the lines
written to `std::cerr`.  `logUpdateThread` is `some c` while the handle is joinable (it
owns a worker started with argument `c`) and `none` otherwise. -/
structure WmxUtil (D : Type) where
  m_curChannel : Int
  stopFlag : Bool
  logUpdateThread : Option Int
  logDataHistory : Option (LogDataHistory D)
  requests : List Request
  cerr : List String

/-- Sequencing: run `k` on the value and state of a normal return, propagate the rest. -/
def andThen {α β S : Type} (r : Outcome α × S) (k : α → S → Outcome β × S) :
    Outcome β × S :=
  match r with
  | (.returned a, s) => k a s
  | (.thrown what, s) => (.thrown what, s)
  | (.terminated, s) => (.terminated, s)
  | (.nullDeref, s) => (.nullDeref, s)

namespace WmxUtil

variable {D : Type}

/-- The state left by the constructor `WmxUtil(wmx3Lib)`. -/
def new : WmxUtil D :=
  { m_curChannel := -1, stopFlag := false, logUpdateThread := none,
    logDataHistory := none, requests := [], cerr := [] }

/-- The state after one more request has gone to the driver. -/
def issue (st : WmxUtil D) (r : Request) : WmxUtil D :=
  { st with requests := st.requests ++ [r] }

/-- The method `checkErrorCode(func, errCode)`. -/
def checkErrorCode (st : WmxUtil D) (func : String) (errCode : Nat) :
    Outcome Unit × WmxUtil D :=
  if errCode ≠ ErrorCode.None then
    let lastErrString :=
      if errCode ≥ 0x00000 ∧ errCode ≤ 0x10000 then
        "function: " ++ func ++ ", ErrorType: WMX3Api, ErrorCode: " ++ toString errCode
      else if errCode ≥ 0x11000 ∧ errCode ≤ 0x11FFF then
        "function: " ++ func ++ ", ErrorType: Log, ErrorCode: " ++ toString errCode
      else
        "function: " ++ func ++ ", ErrorType: Undefined, ErrorCode: " ++ toString errCode
    (.thrown lastErrString, { st with cerr := st.cerr ++ [lastErrString] })
  else
    (.returned (), st)

/-- The method `isAvailableChannel(channel)`. -/
def isAvailableChannel (dev : Log D) (st : WmxUtil D) (channel : Int) :
    Outcome Bool × WmxUtil D :=
  let (ret, memLogStatus) := dev.GetMemoryLogStatus st.requests channel
  let st := st.issue (.GetMemoryLogStatus channel)
  if ret ≠ ErrorCode.None then
    andThen (checkErrorCode st "GetMemoryLogStatus" ret) fun _ st => (.returned false, st)
  else if memLogStatus.logState ≠ LogState.Idle ∧ memLogStatus.bufferOpened = true then
    (.returned false, st)
  else
    (.returned true, st)

/-- The `for` loop of `checkMemoryLogChannel`, entered with loop variable `curChannel`
and local `channel`; its value is the local `channel` when the loop is left. -/
def scanChannels (dev : Log D) : Nat → WmxUtil D → Int → Outcome Int × WmxUtil D
  | 0, st, channel => (.returned channel, st)
  | curChannel + 1, st, channel =>
    andThen (isAvailableChannel dev st ((curChannel + 1 : Nat) : Int)) fun available st =>
      if available then
        let ret := dev.OpenMemoryLogBuffer st.requests ((curChannel + 1 : Nat) : Int)
        let st := st.issue (.OpenMemoryLogBuffer ((curChannel + 1 : Nat) : Int))
        if ret = ErrorCode.None then
          (.returned (toInt8 ((curChannel + 1 : Nat) : Int)), st)
        else
          andThen (checkErrorCode st "OpenMemoryLogBuffer during checkMemoryLogChannel" ret)
            fun _ st => scanChannels dev curChannel st channel
      else
        scanChannels dev curChannel st channel

/-- The method `checkMemoryLogChannel()`; `maxLogChannel` is the constant
`wmx3Api::constants::maxLogChannel` of the driver headers. -/
def checkMemoryLogChannel (dev : Log D) (maxLogChannel : Nat) (st : WmxUtil D) :
    Outcome Int × WmxUtil D :=
  andThen (scanChannels dev (maxLogChannel - 1) st (-1)) fun channel st =>
    (.returned (toUInt8 channel), st)

/-- The body of the locked block of `collectLogData`, run on the history object: the
overflow flag is raised when the batch reports one, then the first `count` entries of
column `axis` are appended in index order. -/
def storeBatch (h : LogDataHistory D) (memLogData : CoreMotionLogOutput D) (axis : Nat) :
    LogDataHistory D :=
  let h := if memLogData.overflowFlag > 0 then h.setOverflowFlag true else h
  (List.range memLogData.count).foldl
    (fun h index =>
      h.addLogData (memLogData.axisData index axis).feedbackPos
        (memLogData.axisData index axis).feedbackVelocity)
    h

/-- The method `collectLogData(channel, axis)`; callers that leave `axis` out pass `0`.
The pointer `logDataHistory` is dereferenced only by `setOverflowFlag` (batch with
`overflowFlag > 0`) and by `addLogData` (batch with `count > 0`). -/
def collectLogData (dev : Log D) (st : WmxUtil D) (channel : Int) (axis : Nat) :
    Outcome Nat × WmxUtil D :=
  let logDataCount := 0
  let (ret, memLogData) := dev.GetMemoryLogData st.requests channel
  let st := st.issue (.GetMemoryLogData channel)
  if ret ≠ ErrorCode.None then
    andThen (checkErrorCode st "collectLogData" ret) fun _ st => (.returned logDataCount, st)
  else
    let logDataCount := toUInt16 memLogData.count
    match st.logDataHistory with
    | none =>
      if memLogData.overflowFlag > 0 ∨ 0 < memLogData.count then (.nullDeref, st)
      else (.returned logDataCount, st)
    | some h =>
      (.returned logDataCount, { st with logDataHistory := some (storeBatch h memLogData axis) })

/-- A run of `n` successive calls `collectLogData(channel, axis)`, as made by the loop of
`logUpdateTask` while it reads the stop flag as false; a call that does not return
normally ends the run. -/
def collectLogDataTimes (dev : Log D) (channel : Int) (axis : Nat) :
    Nat → WmxUtil D → Outcome Unit × WmxUtil D
  | 0, st => (.returned (), st)
  | n + 1, st =>
    andThen (collectLogData dev st channel axis) fun _ st =>
      collectLogDataTimes dev channel axis n st

/-- Lines 323 to 330 of `stopLog`: the close request and the reset of `m_curChannel`. -/
def stopLogClose (dev : Log D) (st : WmxUtil D) (channel : Int) : Outcome Bool × WmxUtil D :=
  let ret := dev.CloseMemoryLogBuffer st.requests channel
  let st := st.issue (.CloseMemoryLogBuffer channel)
  if ret ≠ ErrorCode.None then
    andThen (checkErrorCode st "CloseMemoryLogBuffer during stopLog" ret)
      fun _ st => (.returned false, st)
  else
    (.returned true, { st with m_curChannel := -1 })

/-- The method `stopLog(channel)`. -/
def stopLog (dev : Log D) (st : WmxUtil D) (channel : Int) : Outcome Bool × WmxUtil D :=
  let (ret, memLogStatus) := dev.GetMemoryLogStatus st.requests channel
  let st := st.issue (.GetMemoryLogStatus channel)
  if ret ≠ ErrorCode.None then
    andThen (checkErrorCode st "GetMemoryLogStatus during stopLog" ret)
      fun _ st => (.returned false, st)
  else if memLogStatus.logState = LogState.Running then
    let ret := dev.StopMemoryLog st.requests channel
    let st := st.issue (.StopMemoryLog channel)
    if ret ≠ ErrorCode.None then
      andThen (checkErrorCode st "StopMemoryLog during stopLog" ret)
        fun _ st => (.returned false, st)
    else
      stopLogClose dev st channel
  else
    stopLogClose dev st channel

/-- The assignment `logUpdateThread = std::thread(&WmxUtil::logUpdateTask, this, channel)`:
move-assignment to a handle that is still joinable calls `std::terminate`; otherwise the
handle owns the new worker. -/
def spawnWorker (st : WmxUtil D) (channel : Int) : Outcome Unit × WmxUtil D :=
  match st.logUpdateThread with
  | some _ => (.terminated, st)
  | none => (.returned (), { st with logUpdateThread := some channel })

/-- Lines 253 to 301 of `startLog`, entered with the local `channel` (an `int8_t`). -/
def startLogConfigure (dev : Log D) (st : WmxUtil D) (channel : Int) :
    Outcome Int × WmxUtil D :=
  let maxAxes := 2
  if channel ≠ -1 then
    let axisSel : AxisSelection := { axisCount := maxAxes, axis := List.range maxAxes }
    let memLogOptions : MemoryLogOptions := { triggerEventCount := 0 }
    let ret := dev.SetMemoryLog st.requests channel axisSel memLogOptions
    let st := st.issue (.SetMemoryLog channel axisSel memLogOptions)
    if ret ≠ ErrorCode.None then
      andThen (checkErrorCode st "SetMemoryLog during startLog" ret)
        fun _ st => (.returned (-1), st)
    else
      let ret := dev.StartMemoryLog st.requests channel
      let st := st.issue (.StartMemoryLog channel)
      if ret ≠ ErrorCode.None then
        andThen (checkErrorCode st "StartMemoryLog during startLog" ret)
          fun _ st => (.returned (-1), st)
      else
        let st := { st with m_curChannel := channel }
        let st := { st with logDataHistory := some LogDataHistory.new }
        let st := { st with stopFlag := false }
        andThen (spawnWorker st channel) fun _ st => (.returned channel, st)
  else
    (.returned channel, st)

/-- The method `startLog()`. -/
def startLog (dev : Log D) (maxLogChannel : Nat) (st : WmxUtil D) : Outcome Int × WmxUtil D :=
  let stopped : Outcome Unit × WmxUtil D :=
    if st.logUpdateThread.isSome then
      if st.m_curChannel ≠ -1 then
        andThen (stopLog dev st st.m_curChannel) fun _ st => (.returned (), st)
      else
        (.returned (), st)
    else
      (.returned (), st)
  andThen stopped fun _ st =>
    andThen (checkMemoryLogChannel dev maxLogChannel st) fun found st =>
      startLogConfigure dev st (toInt8 found)

/-- The method `pauseLog(channel)`.  The `join` is taken to return (the worker leaves its
loop once it reads the stop flag); afterwards the handle is no longer joinable. -/
def pauseLog (dev : Log D) (st : WmxUtil D) (channel : Int) : Outcome Unit × WmxUtil D :=
  if st.m_curChannel ≠ channel then
    (.returned (),
      { st with cerr := st.cerr ++ ["Error: The specified channel is not the current channel."] })
  else
    let st := { st with stopFlag := true }
    let ret := dev.StopMemoryLog st.requests channel
    let st := st.issue (.StopMemoryLog channel)
    if ret ≠ ErrorCode.None then
      andThen (checkErrorCode st "StopMemoryLog in pauseLog()" ret) fun _ st => (.returned (), st)
    else
      let st := if st.logUpdateThread.isSome then { st with logUpdateThread := none } else st
      (.returned (), st)

end WmxUtil

/-! ## Specification-side vocabulary -/

/-- The three kinds of device error named by the error-handling design. -/
inductive ErrorKind where
  | WMX3Api
  | Log
  | Undefined
  deriving DecidableEq, Repr

/-- The text printed for a kind after `ErrorType: `. -/
def ErrorKind.text : ErrorKind → String
  | .WMX3Api => "WMX3Api"
  | .Log => "Log"
  | .Undefined => "Undefined"

/-- The kind of a non-zero code as the specification words it: driver-core for
`1 .. 0x10000`, log-subsystem for `0x11000 .. 0x11FFF`, undefined for anything else. -/
def errorKindOf (code : Nat) : ErrorKind :=
  if 1 ≤ code ∧ code ≤ 0x10000 then .WMX3Api
  else if 0x11000 ≤ code ∧ code ≤ 0x11FFF then .Log
  else .Undefined

/-- The message as the specification words it:
`function: <func>, ErrorType: <kind>, ErrorCode: <code in decimal>`. -/
def errorMessage (func : String) (code : Nat) : String :=
  "function: " ++ func ++ ", ErrorType: " ++ (errorKindOf code).text ++ ", ErrorCode: "
    ++ toString code

/-- The test `isAvailableChannel` applies to a successfully probed status. -/
def passesAvailabilityTest (s : MemoryLogStatus) : Bool :=
  !(decide (s.logState ≠ LogState.Idle) && s.bufferOpened)

/-- The samples a batch contributes: its first `count` entries of column `axis`. -/
def batchSamples {D : Type} (b : CoreMotionLogOutput D) (axis : Nat) : List (D × D) :=
  (List.range b.count).map fun index =>
    ((b.axisData index axis).feedbackPos, (b.axisData index axis).feedbackVelocity)

/-- The probes of channels `hi, hi-1, .., lo` in the order the scan issues them. -/
def probesDownTo (hi lo : Nat) : List Request :=
  ((List.range (hi + 1)).reverse.filter fun ch => lo ≤ ch).map
    fun (ch : Nat) => Request.GetMemoryLogStatus (Int.ofNat ch)

/-! ## Concrete devices used to evaluate the code -/

/-- A batch with no entries. -/
def emptyBatch {D : Type} [Zero D] : CoreMotionLogOutput D :=
  { count := 0, overflowFlag := 0, axisData := fun _ _ => ⟨0, 0⟩ }

/-- A device whose answers to status probes and open requests are read from two tables;
every other request succeeds and every fetch gives an empty batch. -/
def tableLog {D : Type} [Zero D] (status : Int → Nat × MemoryLogStatus) (openCode : Int → Nat) :
    Log D :=
  { GetMemoryLogStatus := fun _ channel => status channel
    OpenMemoryLogBuffer := fun _ channel => openCode channel
    CloseMemoryLogBuffer := fun _ _ => 0
    SetMemoryLog := fun _ _ _ _ => 0
    StartMemoryLog := fun _ _ => 0
    StopMemoryLog := fun _ _ => 0
    GetMemoryLogData := fun _ _ => (0, emptyBatch) }

/-- Whether a request is a fetch. -/
def Request.isFetch : Request → Bool
  | .GetMemoryLogData _ => true
  | _ => false

/-- A device that answers its successive fetches with the listed batches, in order, and
with an empty batch afterwards; status probes are read from a table and every other
request succeeds. -/
def scriptedLog {D : Type} [Zero D] (status : Int → Nat × MemoryLogStatus)
    (batches : List (CoreMotionLogOutput D)) : Log D :=
  { GetMemoryLogStatus := fun _ channel => status channel
    OpenMemoryLogBuffer := fun _ _ => 0
    CloseMemoryLogBuffer := fun _ _ => 0
    SetMemoryLog := fun _ _ _ _ => 0
    StartMemoryLog := fun _ _ => 0
    StopMemoryLog := fun _ _ => 0
    GetMemoryLogData := fun issued _ =>
      (0, batches.getD (issued.countP Request.isFetch) emptyBatch) }

/-- The status of `channel` on a well-behaved device after the listed requests: open and
close set and clear the buffer flag, start and stop switch between running and idle. -/
def simStatus (channel : Int) (issued : List Request) : MemoryLogStatus :=
  issued.foldl
    (fun s r =>
      match r with
      | .OpenMemoryLogBuffer c => if c = channel then { s with bufferOpened := true } else s
      | .CloseMemoryLogBuffer c => if c = channel then { s with bufferOpened := false } else s
      | .StartMemoryLog c => if c = channel then { s with logState := .Running } else s
      | .StopMemoryLog c => if c = channel then { s with logState := .Idle } else s
      | _ => s)
    ⟨.Idle, false⟩

/-- A well-behaved device: every request succeeds and status probes report `simStatus`. -/
def simLog {D : Type} [Zero D] : Log D :=
  { GetMemoryLogStatus := fun issued channel => (0, simStatus channel issued)
    OpenMemoryLogBuffer := fun _ _ => 0
    CloseMemoryLogBuffer := fun _ _ => 0
    SetMemoryLog := fun _ _ _ _ => 0
    StartMemoryLog := fun _ _ => 0
    StopMemoryLog := fun _ _ => 0
    GetMemoryLogData := fun _ _ => (0, emptyBatch) }

/-- Status table of a two-channel device: channel 2 idle with the buffer flag still set,
channel 1 idle with the buffer closed. -/
def stickyFlagStatus (channel : Int) : Nat × MemoryLogStatus :=
  if channel = 2 then (0, ⟨.Idle, true⟩) else (0, ⟨.Idle, false⟩)

/-- Status table of a two-channel device: channel 2 idle and closed, channel 1 running
with its buffer open. -/
def oneFreeStatus (channel : Int) : Nat × MemoryLogStatus :=
  if channel = 2 then (0, ⟨.Idle, false⟩) else (0, ⟨.Running, true⟩)

/-- A batch of two entries; column 0 holds the pairs `(10, 20)` and `(11, 21)`. -/
def twoSampleBatch (overflowFlag : Nat) : CoreMotionLogOutput Int :=
  { count := 2, overflowFlag := overflowFlag
    axisData := fun index axis =>
      if axis = 0 then ⟨10 + index, 20 + index⟩ else ⟨-1, -1⟩ }

/-- Three fetch batches of sizes 0, 2, 0; the middle one carries the given overflow flag. -/
def threeBatches (overflowFlag : Nat) : List (CoreMotionLogOutput Int) :=
  [emptyBatch, twoSampleBatch overflowFlag, emptyBatch]

/-- The controller state after `startLog()` on a two-channel device (channel 2 idle and
closed, channel 1 running) that will deliver `threeBatches overflowFlag`. -/
def startedSession (overflowFlag : Nat) : WmxUtil Int :=
  (WmxUtil.startLog (scriptedLog oneFreeStatus (threeBatches overflowFlag)) 3 WmxUtil.new).2

/-- A running session on channel 2: worker handle joinable, two samples collected. -/
def runningSession : WmxUtil Int :=
  { m_curChannel := 2, stopFlag := false, logUpdateThread := some 2,
    logDataHistory := some ⟨[10, 11], [20, 21], false⟩,
    requests :=
      [.GetMemoryLogStatus 2, .OpenMemoryLogBuffer 2, .SetMemoryLog 2 ⟨2, [0, 1]⟩ ⟨0⟩,
        .StartMemoryLog 2],
    cerr := [] }

/-- The arguments of 65536 successive calls `addLogData(1, 2)`. -/
def manySamples : List (Int × Int) := List.replicate 65536 (1, 2)

/-! ## Lemmas on the sample history -/

namespace LogDataHistory

variable {D : Type}

theorem foldl_addLogData (f g : Nat → D) (l : List Nat) (h : LogDataHistory D) :
    l.foldl (fun h index => h.addLogData (f index) (g index)) h =
      { feedbackPositions := h.feedbackPositions ++ l.map f
        feedbackVelocities := h.feedbackVelocities ++ l.map g
        overflowFlag := h.overflowFlag } := by
  induction l generalizing h with
  | nil => simp
  | cons a l ih =>
    rw [List.foldl_cons, ih]
    simp [addLogData, List.append_assoc]

theorem addAll_eq (h : LogDataHistory D) (samples : List (D × D)) :
    h.addAll samples =
      { feedbackPositions := h.feedbackPositions ++ samples.map Prod.fst
        feedbackVelocities := h.feedbackVelocities ++ samples.map Prod.snd
        overflowFlag := h.overflowFlag } := by
  unfold addAll
  induction samples generalizing h with
  | nil => simp
  | cons a l ih =>
    rw [List.foldl_cons, ih]
    simp [addLogData, List.append_assoc]

theorem manySamples_length : manySamples.length = 65536 :=
  List.length_replicate _ _

theorem getLogDataSize_addAll (samples : List (D × D)) :
    (new.addAll samples).getLogDataSize = samples.length % 65536 := by
  simp [addAll_eq, getLogDataSize, toUInt16, new]

theorem getLogData_addAll_lt [Zero D] (samples : List (D × D)) (i : Nat)
    (h16 : i < 65536) (hi : i < samples.length) :
    (new.addAll samples).getLogData i = samples[i] := by
  have hmod : i % 65536 = i := Nat.mod_eq_of_lt h16
  simp [addAll_eq, getLogData, toUInt16, new, hmod, hi, List.getD_eq_getElem?_getD]

theorem getLogData_addAll_ge [Zero D] (samples : List (D × D)) (i : Nat)
    (h16 : i < 65536) (hi : samples.length ≤ i) :
    (new.addAll samples).getLogData i = (0, 0) := by
  have hmod : i % 65536 = i := Nat.mod_eq_of_lt h16
  simp [addAll_eq, getLogData, toUInt16, new, hmod, Nat.not_lt.mpr hi]

end LogDataHistory

/-! ## Lemmas on the error check -/

namespace WmxUtil

variable {D : Type}

theorem checkErrorCode_none (st : WmxUtil D) (func : String) :
    checkErrorCode st func 0 = (.returned (), st) := by
  simp [checkErrorCode, ErrorCode.None]

theorem checkErrorCode_message (func : String) (code : Nat) :
    (if code ≥ 0x00000 ∧ code ≤ 0x10000 then
        "function: " ++ func ++ ", ErrorType: WMX3Api, ErrorCode: " ++ toString code
      else if code ≥ 0x11000 ∧ code ≤ 0x11FFF then
        "function: " ++ func ++ ", ErrorType: Log, ErrorCode: " ++ toString code
      else
        "function: " ++ func ++ ", ErrorType: Undefined, ErrorCode: " ++ toString code)
      = if code = 0 then
          "function: " ++ func ++ ", ErrorType: WMX3Api, ErrorCode: " ++ toString code
        else errorMessage func code := by
  by_cases h0 : code = 0
  · subst h0; simp
  · have h1 : 1 ≤ code := Nat.one_le_iff_ne_zero.mpr h0
    simp only [h0, if_false, errorMessage, errorKindOf, h1, true_and, ge_iff_le, Nat.zero_le]
    by_cases ha : code ≤ 0x10000
    · simp only [ha, if_true, ErrorKind.text, String.append_assoc]
      rfl
    · by_cases hb : 0x11000 ≤ code ∧ code ≤ 0x11FFF
      · simp only [ha, hb, if_false, if_true, ErrorKind.text, String.append_assoc, and_self]
        rfl
      · simp only [ha, hb, if_false, ErrorKind.text, String.append_assoc]
        rfl

theorem checkErrorCode_raise (st : WmxUtil D) (func : String) (code : Nat) (h : code ≠ 0) :
    checkErrorCode st func code =
      (.thrown (errorMessage func code),
        { st with cerr := st.cerr ++ [errorMessage func code] }) := by
  have hm := checkErrorCode_message func code
  simp only [h, if_false] at hm
  simp only [checkErrorCode, ErrorCode.None, ne_eq, h, not_false_eq_true, if_true, hm]

theorem isAvailableChannel_probed (dev : Log D) (st : WmxUtil D) (channel : Int)
    (s : MemoryLogStatus) (h : dev.GetMemoryLogStatus st.requests channel = (0, s)) :
    isAvailableChannel dev st channel =
      (.returned (passesAvailabilityTest s), st.issue (.GetMemoryLogStatus channel)) := by
  unfold isAvailableChannel
  rw [h]
  by_cases hs : s.logState ≠ LogState.Idle ∧ s.bufferOpened = true
  · have : passesAvailabilityTest s = false := by
      simp [passesAvailabilityTest, hs.1, hs.2]
    simp [ErrorCode.None, hs, this]
  · have : passesAvailabilityTest s = true := by
      simp only [passesAvailabilityTest, Bool.not_eq_true', Bool.and_eq_false_imp,
        decide_eq_true_eq]
      intro h1
      by_contra h2
      exact hs ⟨h1, by simpa using h2⟩
    simp [ErrorCode.None, hs, this]

theorem isAvailableChannel_failed (dev : Log D) (st : WmxUtil D) (channel : Int)
    (h : (dev.GetMemoryLogStatus st.requests channel).1 ≠ 0) :
    isAvailableChannel dev st channel =
      (.thrown (errorMessage "GetMemoryLogStatus" (dev.GetMemoryLogStatus st.requests channel).1),
        { st with
          requests := st.requests ++ [.GetMemoryLogStatus channel]
          cerr := st.cerr ++
            [errorMessage "GetMemoryLogStatus"
              (dev.GetMemoryLogStatus st.requests channel).1] }) := by
  unfold isAvailableChannel
  rcases hp : dev.GetMemoryLogStatus st.requests channel with ⟨ret, s⟩
  rw [hp] at h
  simp only [ErrorCode.None, ne_eq, h, not_false_eq_true, if_true]
  rw [checkErrorCode_raise _ _ _ h]
  rfl

theorem probesDownTo_self (c : Nat) :
    probesDownTo c c = [Request.GetMemoryLogStatus (c : Int)] := by
  have h : ((List.range c).reverse.filter fun ch => decide (c ≤ ch)) = [] := by
    rw [List.filter_eq_nil_iff]
    intro a ha
    have : a < c := by simpa using ha
    simp only [decide_eq_true_eq, not_le]
    exact this
  unfold probesDownTo
  rw [List.range_succ, List.reverse_append]
  simp only [List.reverse_cons, List.reverse_nil, List.nil_append, List.singleton_append,
    List.filter_cons, le_refl, decide_True, if_true, h, List.map_cons, List.map_nil]
  rfl

theorem probesDownTo_succ (n c : Nat) (h : c ≤ n) :
    probesDownTo (n + 1) c =
      Request.GetMemoryLogStatus ((n + 1 : Nat) : Int) :: probesDownTo n c := by
  have h1 : c ≤ n + 1 := Nat.le_succ_of_le h
  unfold probesDownTo
  rw [List.range_succ (n + 1), List.reverse_append]
  simp only [List.reverse_cons, List.reverse_nil, List.nil_append, List.singleton_append,
    List.filter_cons, h1, decide_True, if_true, List.map_cons]
  rfl

theorem scanChannels_open_failure (dev : Log D) (status : Nat → MemoryLogStatus) (c e : Nat)
    (hc : 1 ≤ c) (hav : passesAvailabilityTest (status c) = true)
    (hopen : ∀ issued, dev.OpenMemoryLogBuffer issued (c : Int) = e) (he : e ≠ 0) :
    ∀ n : Nat, c ≤ n →
      (∀ issued ch, c ≤ ch → ch ≤ n →
        dev.GetMemoryLogStatus issued (ch : Int) = (0, status ch)) →
      (∀ ch, c < ch → ch ≤ n → passesAvailabilityTest (status ch) = false) →
      ∀ (st : WmxUtil D) (channel : Int),
        scanChannels dev n st channel =
          (.thrown (errorMessage "OpenMemoryLogBuffer during checkMemoryLogChannel" e),
            { st with
              requests := st.requests ++ probesDownTo n c ++ [.OpenMemoryLogBuffer (c : Int)]
              cerr := st.cerr ++
                [errorMessage "OpenMemoryLogBuffer during checkMemoryLogChannel" e] }) := by
  intro n
  induction n with
  | zero => intro h; omega
  | succ n ih =>
    intro hcn hprobe hbusy st channel
    rw [scanChannels, isAvailableChannel_probed dev st _ (status (n + 1))
      (hprobe st.requests (n + 1) hcn le_rfl)]
    by_cases heq : c = n + 1
    · subst heq
      simp only [andThen, hav, if_true, hopen, ErrorCode.None, he, if_false]
      rw [checkErrorCode_raise _ _ _ he, probesDownTo_self]
      simp [issue, List.append_assoc]
    · have hlt : c < n + 1 := lt_of_le_of_ne hcn heq
      have hle : c ≤ n := Nat.lt_succ_iff.mp hlt
      simp only [andThen, hbusy (n + 1) hlt le_rfl, Bool.false_eq_true, if_false]
      rw [ih hle (fun issued ch h1 h2 => hprobe issued ch h1 (Nat.le_succ_of_le h2))
        (fun ch h1 h2 => hbusy ch h1 (Nat.le_succ_of_le h2)), probesDownTo_succ n c hle]
      simp [issue, List.append_assoc]

theorem stopLog_status_failure (dev : Log D) (st : WmxUtil D) (channel : Int) (code : Nat)
    (hret : (dev.GetMemoryLogStatus st.requests channel).1 = code) (hcode : code ≠ 0) :
    stopLog dev st channel =
      (.thrown (errorMessage "GetMemoryLogStatus during stopLog" code),
        { st with
          requests := st.requests ++ [.GetMemoryLogStatus channel]
          cerr := st.cerr ++ [errorMessage "GetMemoryLogStatus during stopLog" code] }) := by
  unfold stopLog
  rcases hp : dev.GetMemoryLogStatus st.requests channel with ⟨ret, s⟩
  rw [hp] at hret
  simp only at hret
  subst hret
  simp only [ErrorCode.None, ne_eq, hcode, not_false_eq_true, if_true]
  rw [checkErrorCode_raise _ _ _ hcode]
  rfl

theorem stopLogClose_ne_false (dev : Log D) (st : WmxUtil D) (channel : Int) :
    (stopLogClose dev st channel).1 ≠ .returned false := by
  unfold stopLogClose
  by_cases h : dev.CloseMemoryLogBuffer st.requests channel = 0
  · simp [ErrorCode.None, h]
  · simp only [ErrorCode.None, ne_eq, h, not_false_eq_true, if_true]
    rw [checkErrorCode_raise _ _ _ h]
    simp [andThen]

theorem stopLog_ne_false (dev : Log D) (st : WmxUtil D) (channel : Int) :
    (stopLog dev st channel).1 ≠ .returned false := by
  by_cases h : (dev.GetMemoryLogStatus st.requests channel).1 = 0
  · unfold stopLog
    rcases hp : dev.GetMemoryLogStatus st.requests channel with ⟨ret, s⟩
    rw [hp] at h
    simp only at h
    subst h
    simp only [ErrorCode.None, ne_eq, not_true_eq_false, if_false]
    by_cases hr : s.logState = LogState.Running
    · simp only [hr, if_true]
      by_cases hs : dev.StopMemoryLog (st.issue (.GetMemoryLogStatus channel)).requests channel = 0
      · simp only [hs, not_true_eq_false, if_false]
        exact stopLogClose_ne_false _ _ _
      · simp only [hs, not_false_eq_true, if_true]
        rw [checkErrorCode_raise _ _ _ hs]
        simp [andThen]
    · simp only [hr, if_false]
      exact stopLogClose_ne_false _ _ _
  · rw [stopLog_status_failure dev st channel _ rfl h]
    simp

/-! ## Claims on the error check, the availability test and the channel scan -/

/-- C7: `checkErrorCode(func, code)` raises exactly when `code` is not 0; a non-zero
32-bit code gets the kind WMX3Api in `1 .. 0x10000`, Log in `0x11000 .. 0x11FFF` and
Undefined elsewhere, the two named ranges never overlap, and the raised (and printed)
message is `function: <func>, ErrorType: <kind>, ErrorCode: <code in decimal>`. -/
theorem checkErrorCode_classifies (st : WmxUtil D) (func : String) (code : Nat)
    (h32 : code < 2 ^ 32) :
    ((∃ what st1, checkErrorCode st func code = (.thrown what, st1)) ↔ code ≠ 0) ∧
    (code = 0 → checkErrorCode st func code = (.returned (), st)) ∧
    (code ≠ 0 →
      checkErrorCode st func code =
        (.thrown ("function: " ++ func ++ ", ErrorType: " ++ (errorKindOf code).text
            ++ ", ErrorCode: " ++ toString code),
          { st with cerr := st.cerr ++
              ["function: " ++ func ++ ", ErrorType: " ++ (errorKindOf code).text
                ++ ", ErrorCode: " ++ toString code] })) ∧
    (errorKindOf code = .WMX3Api ↔ 1 ≤ code ∧ code ≤ 0x10000) ∧
    (errorKindOf code = .Log ↔ 0x11000 ≤ code ∧ code ≤ 0x11FFF) ∧
    (errorKindOf code = .Undefined ↔
      ¬ (1 ≤ code ∧ code ≤ 0x10000) ∧ ¬ (0x11000 ≤ code ∧ code ≤ 0x11FFF)) ∧
    ¬ ((1 ≤ code ∧ code ≤ 0x10000) ∧ (0x11000 ≤ code ∧ code ≤ 0x11FFF)) := by
  have _ := h32
  refine ⟨?_, ?_, ?_, ?_, ?_, ?_, ?_⟩
  · constructor
    · rintro ⟨what, st1, h⟩ h0
      subst h0
      rw [checkErrorCode_none] at h
      cases h
    · intro h0
      exact ⟨_, _, checkErrorCode_raise st func code h0⟩
  · intro h0
    subst h0
    exact checkErrorCode_none st func
  · intro h0
    exact checkErrorCode_raise st func code h0
  · unfold errorKindOf
    split_ifs with ha hb <;> simp_all
  · unfold errorKindOf
    split_ifs with ha hb
    · simp only [reduceCtorEq, false_iff]
      omega
    · simp_all
    · simp_all
  · unfold errorKindOf
    split_ifs with ha hb <;> simp_all
  · omega

/-- Witness for C7: code `0x11005` passed by `stopLog` raises with kind Log. -/
theorem checkErrorCode_classifies_witness :
    (0x11005 : Nat) < 2 ^ 32 ∧
    checkErrorCode (WmxUtil.new : WmxUtil Int) "StopMemoryLog during stopLog" 0x11005 =
      (.thrown "function: StopMemoryLog during stopLog, ErrorType: Log, ErrorCode: 69637",
        { (WmxUtil.new : WmxUtil Int) with
          cerr := ["function: StopMemoryLog during stopLog, ErrorType: Log, ErrorCode: 69637"] }) :=
  ⟨by norm_num,
    (checkErrorCode_classifies (WmxUtil.new : WmxUtil Int) "StopMemoryLog during stopLog"
      0x11005 (by norm_num)).2.2.1 (by norm_num)⟩

/-- C1: evaluated on a probe that succeeds with `logState == Idle` and
`bufferOpened == true`, and on one with a running log and `bufferOpened == false`,
`isAvailableChannel` returns true, where the claim (and the comment above the test in
the source) asks for false. -/
theorem isAvailableChannel_accepts_idle_opened :
    (isAvailableChannel (tableLog (fun _ => (0, ⟨.Idle, true⟩)) (fun _ => 0) : Log Int)
        WmxUtil.new 1).1 = .returned true ∧
    (isAvailableChannel (tableLog (fun _ => (0, ⟨.Running, false⟩)) (fun _ => 0) : Log Int)
        WmxUtil.new 1).1 = .returned true := by
  constructor
  · rw [isAvailableChannel_probed _ _ _ ⟨.Idle, true⟩ rfl]
    rfl
  · rw [isAvailableChannel_probed _ _ _ ⟨.Running, false⟩ rfl]
    rfl

/-- C2: on a device with channels 1 and 2 where only channel 1 reports idle and closed
(channel 2 reports idle with the buffer flag set) and opens succeed,
`checkMemoryLogChannel` probes channel 2, opens it and returns 2; channel 1, the one the
claim expects, is never probed. -/
theorem checkMemoryLogChannel_takes_flagged_channel :
    (checkMemoryLogChannel (tableLog stickyFlagStatus (fun _ => 0) : Log Int) 3
        WmxUtil.new).1 = .returned 2 ∧
    (checkMemoryLogChannel (tableLog stickyFlagStatus (fun _ => 0) : Log Int) 3
        WmxUtil.new).2.requests =
      [.GetMemoryLogStatus 2, .OpenMemoryLogBuffer 2] := by
  constructor <;> rfl

/-- C3: with channel 2 the only available channel (idle and closed; channel 1 runs with
its buffer open) and the open request answered by the non-zero code `0x11001`,
`checkMemoryLogChannel` does not complete normally and does not return the sentinel: the
`checkErrorCode` call in the loop throws, and channel 1 is never probed. -/
theorem checkMemoryLogChannel_open_failure_example :
    (checkMemoryLogChannel (tableLog oneFreeStatus (fun _ => 0x11001) : Log Int) 3
        WmxUtil.new).1 =
      .thrown
        "function: OpenMemoryLogBuffer during checkMemoryLogChannel, ErrorType: Log, ErrorCode: 69633" ∧
    (checkMemoryLogChannel (tableLog oneFreeStatus (fun _ => 0x11001) : Log Int) 3
        WmxUtil.new).1 ≠ .returned (toUInt8 (-1)) ∧
    (checkMemoryLogChannel (tableLog oneFreeStatus (fun _ => 0x11001) : Log Int) 3
        WmxUtil.new).2.requests =
      [.GetMemoryLogStatus 2, .OpenMemoryLogBuffer 2] := by
  refine ⟨by rfl, ?_, by rfl⟩
  have h : (checkMemoryLogChannel (tableLog oneFreeStatus (fun _ => 0x11001) : Log Int) 3
      WmxUtil.new).1 = .thrown
        "function: OpenMemoryLogBuffer during checkMemoryLogChannel, ErrorType: Log, ErrorCode: 69633" := by
    rfl
  rw [h]
  exact fun hne => nomatch hne

/-! ## Claims on `stopLog` and `pauseLog` -/

/-- C8: on a running session on channel 2 whose status query is answered by the
non-zero code 5, `stopLog(2)` does not return false: the `checkErrorCode` call before
the `return false` throws.  No stop-log or close-log-buffer request is issued and
`m_curChannel` stays 2. -/
theorem stopLog_status_failure_example :
    (stopLog (tableLog (fun _ => (5, ⟨.Running, true⟩)) (fun _ => 0) : Log Int)
        runningSession 2).1 =
      .thrown "function: GetMemoryLogStatus during stopLog, ErrorType: WMX3Api, ErrorCode: 5" ∧
    (stopLog (tableLog (fun _ => (5, ⟨.Running, true⟩)) (fun _ => 0) : Log Int)
        runningSession 2).1 ≠ .returned false ∧
    (stopLog (tableLog (fun _ => (5, ⟨.Running, true⟩)) (fun _ => 0) : Log Int)
        runningSession 2).2.requests =
      runningSession.requests ++ [.GetMemoryLogStatus 2] ∧
    (stopLog (tableLog (fun _ => (5, ⟨.Running, true⟩)) (fun _ => 0) : Log Int)
        runningSession 2).2.m_curChannel = 2 := by
  have h : (stopLog (tableLog (fun _ => (5, ⟨.Running, true⟩)) (fun _ => 0) : Log Int)
      runningSession 2).1 =
      .thrown "function: GetMemoryLogStatus during stopLog, ErrorType: WMX3Api, ErrorCode: 5" := by
    rfl
  refine ⟨h, ?_, by rfl, by rfl⟩
  rw [h]
  exact fun hne => nomatch hne

/-- C9: `pauseLog(channel)` with `channel` different from `m_curChannel` returns normally
and changes nothing but the error stream, which receives the mismatch message: the stop
flag, the requests issued to the device, the thread handle, the history and the active
channel are as before. -/
theorem pauseLog_channel_mismatch (dev : Log D) (st : WmxUtil D) (channel : Int)
    (h : channel ≠ st.m_curChannel) :
    pauseLog dev st channel =
      (.returned (),
        { st with
          cerr := st.cerr ++ ["Error: The specified channel is not the current channel."] }) ∧
    (pauseLog dev st channel).2.stopFlag = st.stopFlag ∧
    (pauseLog dev st channel).2.requests = st.requests ∧
    (pauseLog dev st channel).2.logUpdateThread = st.logUpdateThread ∧
    (pauseLog dev st channel).2.logDataHistory = st.logDataHistory ∧
    (pauseLog dev st channel).2.m_curChannel = st.m_curChannel := by
  have hp : pauseLog dev st channel =
      (.returned (),
        { st with
          cerr := st.cerr ++ ["Error: The specified channel is not the current channel."] }) := by
    unfold pauseLog
    rw [if_pos (Ne.symm h)]
  refine ⟨hp, ?_, ?_, ?_, ?_, ?_⟩ <;> rw [hp]

/-- Witness for C9: a running session on channel 2 (worker joinable, two samples
collected) is asked to pause channel 1. -/
theorem pauseLog_channel_mismatch_witness :
    (1 : Int) ≠ 2 ∧
    pauseLog (simLog : Log Int)
        { m_curChannel := 2, stopFlag := false, logUpdateThread := some 2,
          logDataHistory := some ⟨[10, 11], [20, 21], false⟩,
          requests := [.GetMemoryLogStatus 2, .OpenMemoryLogBuffer 2], cerr := [] } 1 =
      (.returned (),
        { m_curChannel := 2, stopFlag := false, logUpdateThread := some 2,
          logDataHistory := some ⟨[10, 11], [20, 21], false⟩,
          requests := [.GetMemoryLogStatus 2, .OpenMemoryLogBuffer 2],
          cerr := ["Error: The specified channel is not the current channel."] }) :=
  ⟨by decide,
    (pauseLog_channel_mismatch (simLog : Log Int)
      { m_curChannel := 2, stopFlag := false, logUpdateThread := some 2,
        logDataHistory := some ⟨[10, 11], [20, 21], false⟩,
        requests := [.GetMemoryLogStatus 2, .OpenMemoryLogBuffer 2], cerr := [] } 1
      (by decide)).1⟩

end WmxUtil

/-! ## Collecting fetched batches -/

namespace WmxUtil

variable {D : Type}

theorem storeBatch_eq (h : LogDataHistory D) (b : CoreMotionLogOutput D) (axis : Nat) :
    storeBatch h b axis =
      { feedbackPositions := h.feedbackPositions ++ (batchSamples b axis).map Prod.fst
        feedbackVelocities := h.feedbackVelocities ++ (batchSamples b axis).map Prod.snd
        overflowFlag := h.overflowFlag || decide (b.overflowFlag > 0) } := by
  unfold storeBatch
  rw [LogDataHistory.foldl_addLogData]
  by_cases hov : b.overflowFlag > 0
  · simp [hov, LogDataHistory.setOverflowFlag, batchSamples, List.map_map, Function.comp_def]
  · simp [hov, batchSamples, List.map_map, Function.comp_def]

theorem length_flatMap_batchSamples (batches : List (CoreMotionLogOutput D)) (axis : Nat) :
    (batches.flatMap fun b => batchSamples b axis).length =
      (batches.map fun b => b.count).sum := by
  induction batches with
  | nil => rfl
  | cons b bs ih =>
    rw [List.flatMap_cons, List.length_append, List.map_cons, List.sum_cons, ih]
    simp [batchSamples]

theorem collectLogData_fetched (dev : Log D) (st : WmxUtil D) (channel : Int) (axis : Nat)
    (b : CoreMotionLogOutput D) (h : LogDataHistory D)
    (hdev : dev.GetMemoryLogData st.requests channel = (0, b))
    (hh : st.logDataHistory = some h) :
    collectLogData dev st channel axis =
      (.returned (toUInt16 b.count),
        { st with
          requests := st.requests ++ [.GetMemoryLogData channel]
          logDataHistory := some (storeBatch h b axis) }) := by
  unfold collectLogData
  rw [hdev]
  simp [ErrorCode.None, issue, hh]

theorem collectLogDataTimes_batches (dev : Log D) (channel : Int) (axis : Nat) :
    ∀ (batches : List (CoreMotionLogOutput D)) (st : WmxUtil D) (h : LogDataHistory D),
      st.logDataHistory = some h →
      (∀ i (hi : i < batches.length),
        dev.GetMemoryLogData (st.requests ++ List.replicate i (.GetMemoryLogData channel))
          channel = (0, batches[i])) →
      collectLogDataTimes dev channel axis batches.length st =
        (.returned (),
          { st with
            requests := st.requests ++ List.replicate batches.length (.GetMemoryLogData channel)
            logDataHistory := some
              { feedbackPositions := h.feedbackPositions ++
                  (batches.flatMap fun b => batchSamples b axis).map Prod.fst
                feedbackVelocities := h.feedbackVelocities ++
                  (batches.flatMap fun b => batchSamples b axis).map Prod.snd
                overflowFlag := h.overflowFlag ||
                  batches.any fun b => decide (b.overflowFlag > 0) } }) := by
  intro batches
  induction batches with
  | nil =>
    intro st h hh _
    cases st
    simp only at hh
    subst hh
    simp [collectLogDataTimes]
  | cons b bs ih =>
    intro st h hh hdev
    have h0 := hdev 0 (by simp)
    simp only [List.replicate_zero, List.append_nil, List.getElem_cons_zero] at h0
    rw [List.length_cons, collectLogDataTimes, collectLogData_fetched dev st channel axis b h h0 hh]
    simp only [andThen]
    rw [ih _ (storeBatch h b axis) rfl (fun i hi => by
      have := hdev (i + 1) (by simpa using hi)
      simpa [List.replicate_succ, List.append_assoc] using this)]
    simp [storeBatch_eq, List.replicate_succ, List.append_assoc, List.flatMap_cons,
      Bool.or_assoc]

end WmxUtil

/-! ## Claims on batch collection and on restarting -/

namespace WmxUtil

variable {D : Type}

/-- C6: when the device answers the successive fetches of channel `channel` with the
batches `batches` (each with return code 0) and the history is freshly created, the calls
`collectLogData(channel)` (axis 0) all return normally and leave a history whose samples
are the concatenation, in order, of each batch's first `count` axis-0 pairs; its length is
the sum of the counts, and its overflow flag is set exactly when some batch had
`overflowFlag > 0`. -/
theorem collectLogData_accumulates (dev : Log D) (channel : Int) (st : WmxUtil D)
    (batches : List (CoreMotionLogOutput D))
    (hfresh : st.logDataHistory = some LogDataHistory.new)
    (hdev : ∀ i (hi : i < batches.length),
      dev.GetMemoryLogData (st.requests ++ List.replicate i (.GetMemoryLogData channel))
        channel = (0, batches[i])) :
    (collectLogDataTimes dev channel 0 batches.length st).1 = .returned () ∧
    (collectLogDataTimes dev channel 0 batches.length st).2.logDataHistory =
      some
        { feedbackPositions := (batches.flatMap fun b => batchSamples b 0).map Prod.fst
          feedbackVelocities := (batches.flatMap fun b => batchSamples b 0).map Prod.snd
          overflowFlag := batches.any fun b => decide (b.overflowFlag > 0) } ∧
    ((batches.flatMap fun b => batchSamples b 0).map Prod.fst).length =
      (batches.map fun b => b.count).sum ∧
    ((batches.flatMap fun b => batchSamples b 0).map Prod.snd).length =
      (batches.map fun b => b.count).sum ∧
    ((batches.any fun b => decide (b.overflowFlag > 0)) = true ↔
      ∃ b ∈ batches, b.overflowFlag > 0) := by
  have hrun := collectLogDataTimes_batches dev channel 0 batches st LogDataHistory.new hfresh hdev
  have hlen := length_flatMap_batchSamples batches 0
  refine ⟨by rw [hrun], ?_, by rw [List.length_map, hlen], by rw [List.length_map, hlen], ?_⟩
  · rw [hrun]
    simp [LogDataHistory.new]
  · simp [List.any_eq_true]

/-- Witness for C6: after `startLog()` has reserved channel 2, three fetches of sizes
0, 2, 0 leave two samples; the overflow flag is false when no batch reported overflow and
true when the second batch did. -/
theorem collectLogData_accumulates_witness :
    (startLog (scriptedLog oneFreeStatus (threeBatches 0)) 3 WmxUtil.new).1 = .returned 2 ∧
    (collectLogDataTimes (scriptedLog oneFreeStatus (threeBatches 0)) 2 0 3
        (startedSession 0)).2.logDataHistory = some ⟨[10, 11], [20, 21], false⟩ ∧
    (collectLogDataTimes (scriptedLog oneFreeStatus (threeBatches 1)) 2 0 3
        (startedSession 1)).2.logDataHistory = some ⟨[10, 11], [20, 21], true⟩ :=
  ⟨rfl,
    (collectLogData_accumulates (scriptedLog oneFreeStatus (threeBatches 0)) 2
      (startedSession 0) (threeBatches 0) rfl
      (fun i hi => by
        have hi3 : i < 3 := hi
        interval_cases i <;> rfl)).2.1.trans rfl,
    (collectLogData_accumulates (scriptedLog oneFreeStatus (threeBatches 1)) 2
      (startedSession 1) (threeBatches 1) rfl
      (fun i hi => by
        have hi3 : i < 3 := hi
        interval_cases i <;> rfl)).2.1.trans rfl⟩

/-- C10: on a well-behaved device, `startLog()` called twice in succession: the first
call reserves channel 2 and leaves a joinable worker handle; the second call runs
`stopLog(2)` (stop and close requests only), reserves channel 2 again and reaches the
assignment of the new thread with the stop flag false and the first handle still
joinable, which ends in `std::terminate`.  The stop flag is never set and the first
worker is never joined. -/
theorem startLog_twice_reaches_terminate :
    (startLog (simLog : Log Int) 3 WmxUtil.new).1 = .returned 2 ∧
    (startLog (simLog : Log Int) 3 WmxUtil.new).2.logUpdateThread = some 2 ∧
    (startLog (simLog : Log Int) 3 (startLog (simLog : Log Int) 3 WmxUtil.new).2).1
      = .terminated ∧
    (startLog (simLog : Log Int) 3 (startLog (simLog : Log Int) 3 WmxUtil.new).2).2.stopFlag
      = false ∧
    (startLog (simLog : Log Int) 3
        (startLog (simLog : Log Int) 3 WmxUtil.new).2).2.logUpdateThread = some 2 ∧
    (startLog (simLog : Log Int) 3 (startLog (simLog : Log Int) 3 WmxUtil.new).2).2.requests =
      [.GetMemoryLogStatus 2, .OpenMemoryLogBuffer 2,
        .SetMemoryLog 2 ⟨2, [0, 1]⟩ ⟨0⟩, .StartMemoryLog 2,
        .GetMemoryLogStatus 2, .StopMemoryLog 2, .CloseMemoryLogBuffer 2,
        .GetMemoryLogStatus 2, .OpenMemoryLogBuffer 2,
        .SetMemoryLog 2 ⟨2, [0, 1]⟩ ⟨0⟩, .StartMemoryLog 2] := by
  refine ⟨?_, ?_, ?_, ?_, ?_, ?_⟩ <;> rfl

end WmxUtil

/-! ## Claims on the sample history -/

namespace LogDataHistory

/-- C4: after 65536 calls of `addLogData` on a fresh history, `getLogDataSize()` returns
0, not 65536: the vector size is cut to the 16 bits of the return type. -/
theorem getLogDataSize_wraps_at_65536 :
    ((new : LogDataHistory Int).addAll manySamples).getLogDataSize = 0 := by
  rw [getLogDataSize_addAll, manySamples_length]

/-- C5: after 65536 calls `addLogData(1, 2)` on a fresh history, `getLogDataSize()` is 0,
so index 0 is not below it, yet `getLogData(0)` returns the stored pair `(1, 2)` and not
`(0, 0)`. -/
theorem getLogData_beyond_reported_size :
    ¬ (0 < ((new : LogDataHistory Int).addAll manySamples).getLogDataSize) ∧
    ((new : LogDataHistory Int).addAll manySamples).getLogData 0 = (1, 2) ∧
    ((new : LogDataHistory Int).addAll manySamples).getLogData 0 ≠ (0, 0) := by
  have hsize : ((new : LogDataHistory Int).addAll manySamples).getLogDataSize = 0 := by
    rw [getLogDataSize_addAll, manySamples_length]
  have hget : ((new : LogDataHistory Int).addAll manySamples).getLogData 0 = (1, 2) := by
    have h0 : 0 < manySamples.length := by rw [manySamples_length]; norm_num
    rw [getLogData_addAll_lt manySamples 0 (by norm_num) h0]
    exact List.getElem_replicate _ _
  refine ⟨by rw [hsize]; exact Nat.lt_irrefl 0, hget, ?_⟩
  rw [hget]
  decide

end LogDataHistory

end wmxclang
